import Mathlib

/-!
Verification of the CORD-19 dashboard's filter-and-aggregate query layer.

The development shallowly embeds the data loading, filtering, search,
aggregation and summary-metric code of `src/streamlit_app.py` as executable
Lean definitions over lists of rows, and proves the documented properties
of that layer.  Dates, machine floats and the random sampler of the pandas
library are modelled at the granularity the properties need; every such
modelling decision is recorded in the doc comment of the definition.
-/

namespace Cord19

/-- Calendar date as produced by the pandas datetime parser; only the
fields the dashboard reads (year, month, with day kept for ordering)
are modelled. -/
structure PDate where
  year : Int
  month : Int
  day : Int
deriving DecidableEq

/-- Outcome of reading the raw `publish_time` CSV cell, before the
`pd.to_datetime` coercion: the cell can be absent, hold an unparseable
string, or hold a string denoting a valid date.  The parser of the
pandas library is not repository code, so its verdict on each cell is
taken as input here. -/
inductive RawDate where
  | missing : RawDate
  | unparseable : String → RawDate
  | valid : PDate → RawDate
deriving DecidableEq

/-- One row of `cord19_metadata.csv` as read by `pd.read_csv`, before the
cleaning steps of `load_data`.  Text cells may be null (NaN). -/
structure RawRow where
  title : Option String
  authors : Option String
  journal : Option String
  source_x : Option String
  publish_time : RawDate
  abstract : Option String
  doi : Option String
  has_full_text : Bool
deriving DecidableEq

/-- Sentinel filled into a null abstract by `load_data`. -/
def abstractSentinel : String := "No abstract available"

/-- Sentinel filled into a null journal by `load_data`. -/
def journalSentinel : String := "Unknown Journal"

/-- Sentinel filled into a null doi by `load_data`. -/
def doiSentinel : String := "No DOI available"

/-- One row of the normalized table produced by `load_data`: columns the
CSV supplies plus the derived columns.  `abstract`, `journal` and `doi`
are plain strings because `load_data` fills their nulls with sentinels;
`title`, `authors` and `source_x` are never filled and stay nullable. -/
structure Row where
  title : Option String
  authors : Option String
  journal : String
  source_x : Option String
  publish_time : Option PDate
  publish_year : Option Int
  publish_month : Option Int
  abstract : String
  doi : String
  has_full_text : Bool
  author_count : Option Nat
  abstract_length : Nat
deriving DecidableEq

/-- Embeds `pd.to_datetime(df['publish_time'], errors='coerce')` applied to
one cell: a missing or unparseable cell coerces to null, a valid date is
kept. -/
def coerceDate : RawDate → Option PDate
  | RawDate.missing => none
  | RawDate.unparseable _ => none
  | RawDate.valid d => some d

/-- Embeds `df['authors'].str.split(',').str.len()` on one cell: null stays
null, a string maps to its number of comma-separated tokens (the empty
string splits into one empty token, as in Python). -/
def authorCount (authors : Option String) : Option Nat :=
  authors.map (fun s => (s.splitOn (",")).length)

/-- Embeds the per-row cleaning of `load_data` (lines 50-57 of the source):
parse `publish_time` with coercion, derive `publish_year`/`publish_month`
null-propagatingly, fill the `abstract`/`journal`/`doi` sentinels, derive
`author_count` and `abstract_length`. -/
def loadRow (r : RawRow) : Row :=
  let pt := coerceDate r.publish_time
  let ab := r.abstract.getD abstractSentinel
  { title := r.title
    authors := r.authors
    journal := r.journal.getD journalSentinel
    source_x := r.source_x
    publish_time := pt
    publish_year := pt.map (fun d => d.year)
    publish_month := pt.map (fun d => d.month)
    abstract := ab
    doi := r.doi.getD doiSentinel
    has_full_text := r.has_full_text
    author_count := authorCount r.authors
    abstract_length := ab.length }

/-- Embeds `load_data` (lines 44-61): reading the CSV file yields the
normalized table; an absent file raises `FileNotFoundError`, which the
function catches and turns into `None`.  The file system is modelled as
the optional list of raw rows the CSV reader would produce. -/
def load_data (file : Option (List RawRow)) : Option (List Row) :=
  file.map (fun rows => rows.map loadRow)

/-- The user-chosen constraints of the sidebar: selected years, journals
and sources (each a possibly empty selection list) and the optional
search term of the search tab. -/
structure FilterSpec where
  years : List Int
  journals : List String
  sources : List String
  searchTerm : Option String
deriving DecidableEq

/-- Embeds `Series.isin(values)` on one cell of a nullable column: a null
cell is never a member (the selection lists never contain nulls). -/
def optMem {α : Type} [BEq α] : Option α → List α → Bool
  | none, _ => false
  | some a, l => l.contains a

/-- Embeds the filter block of `main` (lines 104-111): starting from a
copy of the table, each of the three selections is applied with `isin`
only when the selection list is non-empty (Python truthiness of a list). -/
def applyFilters (df : List Row) (spec : FilterSpec) : List Row :=
  let d1 := if spec.years.isEmpty then df
            else df.filter (fun r => optMem r.publish_year spec.years)
  let d2 := if spec.journals.isEmpty then d1
            else d1.filter (fun r => spec.journals.contains r.journal)
  let d3 := if spec.sources.isEmpty then d2
            else d2.filter (fun r => optMem r.source_x spec.sources)
  d3

/-- The conjunction of the three `isin` constraints on one row; used to
state soundness and completeness of `applyFilters`. -/
def rowMatches (spec : FilterSpec) (r : Row) : Bool :=
  optMem r.publish_year spec.years
    && spec.journals.contains r.journal
    && optMem r.source_x spec.sources

/-- One atom of a compiled search pattern: a pattern character matching
one input character under `re.IGNORECASE`, or the regex wildcard matching
any one character. -/
inductive PatAtom where
  | ch : Char → PatAtom
  | any : PatAtom
deriving DecidableEq

/-- Characters that the Python regex engine treats specially.  Braces are
written by code. -/
def metaChars : List Char :=
  ['.', '^', '$', '*', '+', '?', '\x7b', '\x7d', '[', ']', '\\', '|', '(', ')']

/-- Modelled fragment of the Python regex compiler that
`Series.str.contains` invokes on the search term (the default is
regex matching, not literal matching).  The fragment covers exactly
the patterns the theorems below touch: plain characters compile to
character atoms, the dot compiles to the any-character wildcard, a
backslash makes a following metacharacter literal, and every other
metacharacter construct is rejected (`none`), standing for the part of
the regex language outside the model.  A dangling backslash is a
compile error in Python and is also `none`. -/
def parsePat : List Char → Option (List PatAtom)
  | [] => some []
  | c :: rest =>
      if c = '\\' then
        match rest with
        | [] => none
        | d :: rest2 =>
            if d ∈ metaChars then (parsePat rest2).map (fun p => PatAtom.ch d :: p)
            else none
      else if c = '.' then (parsePat rest).map (fun p => PatAtom.any :: p)
      else if c ∈ metaChars then none
      else (parsePat rest).map (fun p => PatAtom.ch c :: p)

/-- One atom against one input character; character atoms compare
case-insensitively, modelling the `re.IGNORECASE` flag that
`case=False` sets. -/
def atomMatches : PatAtom → Char → Bool
  | PatAtom.ch c, a => a.toLower = c.toLower
  | PatAtom.any, _ => true

/-- The compiled pattern matches at the very start of the input (each
atom consumes exactly one character). -/
def patAtStart : List PatAtom → List Char → Bool
  | [], _ => true
  | _ :: _, [] => false
  | p :: ps, a :: as => atomMatches p a && patAtStart ps as

/-- Embeds `re.search`: the compiled pattern matches starting at some
position of the input. -/
def patSearch (p : List PatAtom) : List Char → Bool
  | [] => patAtStart p []
  | a :: as => patAtStart p (a :: as) || patSearch p as

/-- The first list equals an initial segment of the second; spec-side
notion used to state what a substring is. -/
def chStartsWith : List Char → List Char → Bool
  | [], _ => true
  | _ :: _, [] => false
  | c :: cs, a :: as => (a = c) && chStartsWith cs as

/-- The first list occurs contiguously somewhere inside the second;
spec-side notion of substring occurrence. -/
def chOccursIn (w : List Char) : List Char → Bool
  | [] => chStartsWith w []
  | a :: as => chStartsWith w (a :: as) || chOccursIn w as

/-- The characters of a string, lower-cased. -/
def lowerChars (s : String) : List Char :=
  s.toList.map Char.toLower

/-- The search term occurs case-insensitively as a substring of the
field; this is the spec's description of what the search matches. -/
def ciSubstrOf (term field : String) : Bool :=
  chOccursIn (lowerChars term) (lowerChars field)

/-- Embeds `Series.str.contains(term, case=False, na=False)` on one
nullable cell, after the term has been compiled: a null cell never
matches, a string cell matches when the regex search succeeds. -/
def cellContains (p : List PatAtom) : Option String → Bool
  | none => false
  | some s => patSearch p s.toList

/-- The search mask of one row (lines 297-298 of the source): the title
column matches or the abstract column matches. -/
def rowSearchHit (p : List PatAtom) (r : Row) : Bool :=
  cellContains p r.title || cellContains p (some r.abstract)

/-- Embeds the search block of the search tab (lines 295-299): the term
is compiled once and the view is filtered by the title-or-abstract mask.
A term the compiler rejects raises `re.error` in Python, modelled as
`none`. -/
def searchFilter (view : List Row) (term : String) : Option (List Row) :=
  (parsePat term.toList).map (fun p => view.filter (rowSearchHit p))

/-- Embeds line 197, `value_counts().sort_index()` on the `publish_year`
column: null years are dropped (`value_counts` default), and the result
pairs each distinct year, in ascending order, with its number of
occurrences. -/
def aggregateByYear (view : List Row) : List (Int × Nat) :=
  let ys := view.filterMap (fun r => r.publish_year)
  (List.insertionSort (fun a b => a ≤ b) ys.dedup).map (fun y => (y, ys.count y))

/-- Value of one summary metric as the presentation layer receives it.
Machine floats are modelled exactly: a finite float computed from the
integer columns is a rational, the float NaN that numpy produces for
0/0 and for the mean of an empty series is the `nan` constructor, the
string sentinel of the guarded branches is `na`, and an uncaught
exception (IndexError from `.iloc[0]` on an empty mode, AttributeError
from `NaT.strftime`) is `err`. -/
inductive MetricVal where
  | rat : Rat → MetricVal
  | int : Int → MetricVal
  | str : String → MetricVal
  | date : PDate → MetricVal
  | nan : MetricVal
  | na : MetricVal
  | err : MetricVal
deriving DecidableEq

/-- Embeds `Series.mean()` over the non-null values of a column: the
mean of an empty series is the float NaN, never an exception. -/
def pandasMean (xs : List Rat) : MetricVal :=
  if xs.isEmpty then MetricVal.nan
  else MetricVal.rat (xs.sum / (xs.length : Rat))

/-- The distinct values of a column in ascending order, the candidates
`Series.mode` ranks by frequency. -/
def modeCandidates {α : Type} [DecidableEq α] [LinearOrder α] (l : List α) : List α :=
  List.insertionSort (fun a b => a ≤ b) l.dedup

/-- The maximal frequency any value of the column attains. -/
def modeMaxCount {α : Type} [DecidableEq α] [LinearOrder α] (l : List α) : Nat :=
  ((modeCandidates l).map (fun y => l.count y)).foldr Nat.max 0

/-- Embeds `Series.mode()` over the non-null values of a column: the
distinct values of maximal frequency in ascending order (numeric or
lexicographic). -/
def pandasMode {α : Type} [DecidableEq α] [LinearOrder α] (l : List α) : List α :=
  (modeCandidates l).filter (fun y => l.count y == modeMaxCount l)

/-- Specialization of pandasMode to the integer year column. -/
def pandasModeInt (l : List Int) : List Int := pandasMode l

/-- Specialization of pandasMode to string columns. -/
def pandasModeStr (l : List String) : List String := pandasMode l

/-- Embeds line 165, the most-active-year insight: the empty view is
guarded to the string sentinel; otherwise `.mode().iloc[0]` takes the
first (smallest) most-frequent year, and raises IndexError when every
year of the non-empty view is null, because the mode of an all-null
series is empty. -/
def modeYearMetric (view : List Row) : MetricVal :=
  if view.isEmpty then MetricVal.na
  else
    match pandasModeInt (view.filterMap (fun r => r.publish_year)) with
    | [] => MetricVal.err
    | y :: _ => MetricVal.int y

/-- Embeds lines 172-173 for the nullable `source_x` column and the
non-null `journal` column alike: mode of the non-null values with the
empty-view guard, IndexError when no non-null value exists. -/
def modeStrMetric (view : List Row) (proj : Row → Option String) : MetricVal :=
  if view.isEmpty then MetricVal.na
  else
    match pandasModeStr (view.filterMap proj) with
    | [] => MetricVal.err
    | s :: _ => MetricVal.str s

/-- Chronological order on modelled dates. -/
def pdateLe (a b : PDate) : Bool :=
  if a.year = b.year then
    if a.month = b.month then decide (a.day ≤ b.day)
    else decide (a.month ≤ b.month)
  else decide (a.year ≤ b.year)

/-- Earliest date of a list, or none when the list is empty (the min of
an all-null datetime column is NaT). -/
def minDateList : List PDate → Option PDate
  | [] => none
  | d :: ds => some (ds.foldl (fun acc x => if pdateLe acc x then acc else x) d)

/-- Latest date of a list, or none when the list is empty. -/
def maxDateList : List PDate → Option PDate
  | [] => none
  | d :: ds => some (ds.foldl (fun acc x => if pdateLe x acc then acc else x) d)

/-- Embeds lines 166-167: the empty view is guarded to the sentinel;
otherwise the min (resp. max) of the `publish_time` column is formatted
with `strftime`, which raises on NaT, the value the min takes when every
date of the non-empty view is null. -/
def dateRangeMetric (view : List Row) (pick : List PDate → Option PDate) : MetricVal :=
  if view.isEmpty then MetricVal.na
  else
    match pick (view.filterMap (fun r => r.publish_time)) with
    | none => MetricVal.err
    | some d => MetricVal.date d

/-- The fixed record of summary metrics the Overview tab computes from
the filtered view. -/
structure Metrics where
  totalCount : Nat
  uniqueJournalCount : Nat
  meanAuthorCount : MetricVal
  fullTextPct : MetricVal
  modeYear : MetricVal
  dateRangeMin : MetricVal
  dateRangeMax : MetricVal
  meanAbstractLength : MetricVal
  modeSource : MetricVal
  modeJournal : MetricVal
  abstractCompleteness : MetricVal
deriving DecidableEq

/-- Embeds the metric block of the Overview tab (lines 120-188).
`fullTextPct` is line 143, `(sum / len) * 100` with no empty guard: on
the empty view numpy evaluates the integer division 0/0 to the float
NaN (with a runtime warning, not an exception), so the metric is NaN
there.  `meanAuthorCount` is line 136, also unguarded, and pandas
returns NaN for the mean of an empty column.  The insight metrics of
lines 164-188 all carry the source's `if not filtered_df.empty` guard,
yielding the string sentinel or zero on the empty view. -/
def summarize (view : List Row) : Metrics :=
  { totalCount := view.length
    uniqueJournalCount := (view.map (fun r => r.journal)).dedup.length
    meanAuthorCount :=
      pandasMean ((view.filterMap (fun r => r.author_count)).map (fun n => (n : Rat)))
    fullTextPct :=
      if view.length = 0 then MetricVal.nan
      else MetricVal.rat
        (((view.countP (fun r => r.has_full_text) : Rat) / (view.length : Rat)) * 100)
    modeYear := modeYearMetric view
    dateRangeMin := dateRangeMetric view minDateList
    dateRangeMax := dateRangeMetric view maxDateList
    meanAbstractLength :=
      if view.isEmpty then MetricVal.rat 0
      else MetricVal.rat
        ((((view.map (fun r => r.abstract_length)).sum : Rat)) / (view.length : Rat))
    modeSource := modeStrMetric view (fun r => r.source_x)
    modeJournal := modeStrMetric view (fun r => some r.journal)
    abstractCompleteness :=
      if view.isEmpty then MetricVal.rat 0
      else MetricVal.rat
        (((view.countP (fun r => r.abstract ≠ abstractSentinel) : Rat)
            / (view.length : Rat)) * 100) }

/-- Embeds `DataFrame.sample(k)`: drawing more rows than the population
raises ValueError (`none`); otherwise k rows are drawn without
replacement.  Which k rows the library draws is random and outside the
model; the model returns the first k, which has the selection's exact
cardinality and error behaviour. -/
def pandasSample (view : List Row) (k : Nat) : Option (List Row) :=
  if k ≤ view.length then some (view.take k) else none

/-- Embeds line 319, `filtered_df.sample(min(n, len(filtered_df)))`, with
the source's fixed sample size generalized to a parameter as in the
spec's operation. -/
def sampleRows (view : List Row) (n : Nat) : Option (List Row) :=
  pandasSample view (min n view.length)

/-- Embeds the control flow of `main` around the load (lines 70-72): when
`load_data` returns `None` the function returns at once, so the query
layer (filtering and summarizing) runs only on a successfully loaded
table. -/
def mainResult (file : Option (List RawRow)) (spec : FilterSpec) : Option Metrics :=
  match load_data file with
  | none => none
  | some df => some (summarize (applyFilters df spec))

/-- Embeds line 81: the options offered by the year widget, the distinct
non-null years of the table in ascending order; the widget pre-selects
all of them. -/
def availableYears (df : List Row) : List Int :=
  List.insertionSort (fun a b => a ≤ b) (df.filterMap (fun r => r.publish_year)).dedup

/-- Builder for the concrete rows the witnesses below evaluate on,
following the walkthrough scenario of section 8 of the spec. -/
def exRow (y : Option Int) (j s : String) (t : Option String) (ab : String) : Row :=
  { title := t
    authors := some ("A, B")
    journal := j
    source_x := some s
    publish_time := y.map (fun yy => { year := yy, month := 1, day := 1 })
    publish_year := y
    publish_month := y.map (fun _ => (1 : Int))
    abstract := ab
    doi := doiSentinel
    has_full_text := true
    author_count := some 2
    abstract_length := ab.length }

/-- Scenario row A: year 2020, journal J1, source S1, term in the title. -/
def exRowA : Row := exRow (some 2020) ("J1") ("S1") (some ("covid vaccine trial")) abstractSentinel

/-- Scenario row B: year 2021, journal J2, source S2, term in the abstract. -/
def exRowB : Row := exRow (some 2021) ("J2") ("S2") (some ("unrelated topic")) ("vaccine efficacy study")

/-- Scenario row C: year 2020, journal J1, source S1, no match. -/
def exRowC : Row := exRow (some 2020) ("J1") ("S1") (some ("other")) ("other")

/-- A row whose publish date failed to parse, so its year is null. -/
def exRowNullYear : Row := exRow none ("J1") ("S1") (some ("undated paper")) ("text")

/-- A row whose title and abstract contain no dot character. -/
def exRowDot : Row := exRow (some 2020) ("J1") ("S1") (some ("abc")) abstractSentinel

/-- The three-row scenario table. -/
def exTbl : List Row := [exRowA, exRowB, exRowC]

/-- The scenario table extended with a null-year row. -/
def exTblNull : List Row := [exRowA, exRowNullYear]

/-- A raw CSV row whose publish-time cell is unparseable. -/
def exRawBad : RawRow :=
  { title := some ("t")
    authors := none
    journal := none
    source_x := some ("S1")
    publish_time := RawDate.unparseable ("99/99/9999")
    abstract := none
    doi := none
    has_full_text := false }

/-- Every row surviving applyFilters came from the table and passed each
selection that was non-empty. -/
theorem mem_of_mem_applyFilters {r : Row} {df : List Row} {spec : FilterSpec}
    (h : r ∈ applyFilters df spec) :
    r ∈ df ∧
      (spec.years ≠ [] → optMem r.publish_year spec.years = true) ∧
      (spec.journals ≠ [] → spec.journals.contains r.journal = true) ∧
      (spec.sources ≠ [] → optMem r.source_x spec.sources = true) := by
  unfold applyFilters at h
  by_cases hy : spec.years.isEmpty <;> by_cases hj : spec.journals.isEmpty <;>
    by_cases hs : spec.sources.isEmpty <;>
      simp only [hy, hj, hs, if_true, if_false, List.mem_filter,
        Bool.not_eq_true, List.isEmpty_eq_true, List.isEmpty_eq_false,
        List.isEmpty_iff] at h ⊢ <;>
      simp_all [List.isEmpty_iff]

/-- With all three selections non-empty, applyFilters is the single
filter by the conjunction of the three constraints. -/
theorem applyFilters_eq_filter (df : List Row) (spec : FilterSpec)
    (hy : spec.years ≠ []) (hj : spec.journals ≠ []) (hs : spec.sources ≠ []) :
    applyFilters df spec = df.filter (rowMatches spec) := by
  have hy' : spec.years.isEmpty = false := by simp [List.isEmpty_eq_false, hy]
  have hj' : spec.journals.isEmpty = false := by simp [List.isEmpty_eq_false, hj]
  have hs' : spec.sources.isEmpty = false := by simp [List.isEmpty_eq_false, hs]
  unfold applyFilters
  rw [hy', hj', hs']
  simp only [Bool.false_eq_true, if_false]
  rw [List.filter_filter, List.filter_filter]
  refine List.filter_congr (fun r _ => ?_)
  unfold rowMatches
  cases optMem r.publish_year spec.years <;>
    cases spec.journals.contains r.journal <;>
      cases optMem r.source_x spec.sources <;> rfl

/-- C2: a FilterSpec whose three selections are empty and whose search
term is absent leaves the table unchanged in content and order. -/
theorem applyFilters_empty_spec_id (df : List Row) (spec : FilterSpec)
    (hy : spec.years = []) (hj : spec.journals = []) (hs : spec.sources = [])
    (ht : spec.searchTerm = none) :
    applyFilters df spec = df := by
  simp [applyFilters, hy, hj, hs]

/-- Witness for C2 at the scenario table. -/
theorem applyFilters_empty_spec_id_witness :
    applyFilters exTbl { years := [], journals := [], sources := [], searchTerm := none }
      = exTbl :=
  applyFilters_empty_spec_id exTbl _ rfl rfl rfl rfl

/-- C3: with the three selections non-empty, every surviving row meets
every constraint, every table row meeting all constraints survives with
its multiplicity unchanged, and the result is a sublist of the table, so
original order is preserved and no row is duplicated. -/
theorem applyFilters_sound_complete (df : List Row) (spec : FilterSpec)
    (hy : spec.years ≠ []) (hj : spec.journals ≠ []) (hs : spec.sources ≠ []) :
    (∀ r ∈ applyFilters df spec, rowMatches spec r = true) ∧
    (∀ r : Row, rowMatches spec r = true →
        (applyFilters df spec).count r = df.count r) ∧
    List.Sublist (applyFilters df spec) df := by
  rw [applyFilters_eq_filter df spec hy hj hs]
  exact ⟨fun r hr => (List.mem_filter.mp hr).2,
         fun r hr => List.count_filter hr,
         List.filter_sublist df⟩

/-- The non-empty selections used by the C3 witness. -/
def exSpec : FilterSpec :=
  { years := [2020], journals := [("J1")], sources := [("S1")], searchTerm := none }

/-- Witness for C3 at the scenario table with a non-empty selection on
each dimension. -/
theorem applyFilters_sound_complete_witness :
    (exSpec.years ≠ [] ∧ exSpec.journals ≠ [] ∧ exSpec.sources ≠ []) ∧
    ((∀ r ∈ applyFilters exTbl exSpec, rowMatches exSpec r = true) ∧
     (∀ r : Row, rowMatches exSpec r = true →
         (applyFilters exTbl exSpec).count r = exTbl.count r) ∧
     List.Sublist (applyFilters exTbl exSpec) exTbl) :=
  ⟨by refine ⟨?_, ?_, ?_⟩ <;> decide,
   applyFilters_sound_complete exTbl exSpec (by decide) (by decide) (by decide)⟩

/-- C10: as soon as the year selection is non-empty, a row with a null
publish year is excluded from the filtered view, whatever the selection
contains. -/
theorem nonempty_years_excludes_null (df : List Row) (spec : FilterSpec) (r : Row)
    (hy : spec.years ≠ []) (hmem : r ∈ df) (hnull : r.publish_year = none) :
    r ∉ applyFilters df spec := by
  intro hc
  have h := (mem_of_mem_applyFilters hc).2.1 hy
  rw [hnull] at h
  simp [optMem] at h

/-- Witness for C10: the year widget's own default selection, which
contains every year occurring in the table, still drops the null-year
row. -/
theorem nonempty_years_excludes_null_witness :
    (availableYears exTblNull ≠ [] ∧ exRowNullYear ∈ exTblNull ∧
      exRowNullYear.publish_year = none) ∧
    exRowNullYear ∉ applyFilters exTblNull
      { years := availableYears exTblNull, journals := [], sources := [],
        searchTerm := none } :=
  ⟨by refine ⟨?_, ?_, ?_⟩ <;> decide,
   nonempty_years_excludes_null exTblNull _ exRowNullYear (by decide) (by decide)
     (by decide)⟩

/-- C6: a missing source file makes the load fail with a value distinct
from any successful (even empty) load, and the query layer is never
reached. -/
theorem load_data_notfound :
    load_data none = none ∧
    (∀ spec : FilterSpec, mainResult none spec = none) ∧
    load_data none ≠ load_data (some []) :=
  ⟨rfl, fun _ => rfl, by decide⟩

/-- C7: a row whose publish-time cell is not a valid date loads with
null date, year and month, and loading never drops a row. -/
theorem load_coerces_bad_dates (raw : RawRow)
    (h : ∀ d : PDate, raw.publish_time ≠ RawDate.valid d) :
    (loadRow raw).publish_time = none ∧
    (loadRow raw).publish_year = none ∧
    (loadRow raw).publish_month = none ∧
    ∀ rows : List RawRow, ∃ df, load_data (some rows) = some df ∧
      df.length = rows.length ∧ (raw ∈ rows → loadRow raw ∈ df) := by
  have hc : coerceDate raw.publish_time = none := by
    cases hpt : raw.publish_time with
    | missing => rfl
    | unparseable s => rfl
    | valid d => exact absurd hpt (h d)
  refine ⟨by simp [loadRow, hc], by simp [loadRow, hc], by simp [loadRow, hc], ?_⟩
  intro rows
  exact ⟨rows.map loadRow, rfl, by simp, fun hm => List.mem_map_of_mem loadRow hm⟩

/-- Witness for C7 at a raw row with an unparseable date cell. -/
theorem load_coerces_bad_dates_witness :
    (∀ d : PDate, exRawBad.publish_time ≠ RawDate.valid d) ∧
    ((loadRow exRawBad).publish_time = none ∧
     (loadRow exRawBad).publish_year = none ∧
     (loadRow exRawBad).publish_month = none ∧
     ∀ rows : List RawRow, ∃ df, load_data (some rows) = some df ∧
       df.length = rows.length ∧ (exRawBad ∈ rows → loadRow exRawBad ∈ df)) :=
  ⟨fun d h => by simp [exRawBad] at h,
   load_coerces_bad_dates exRawBad (fun d h => by simp [exRawBad] at h)⟩

/-- C9: sampling never raises; it returns exactly the minimum of the
requested count and the view size, and once the request reaches the view
size it returns the whole view. -/
theorem sampleRows_min_count (view : List Row) (n : Nat) :
    (∃ rows, sampleRows view n = some rows ∧ rows.length = min n view.length) ∧
    (view.length ≤ n → sampleRows view n = some view) := by
  constructor
  · refine ⟨view.take (min n view.length), ?_, ?_⟩
    · simp [sampleRows, pandasSample, Nat.min_le_right]
    · simp only [List.length_take]
      omega
  · intro hle
    have hm : min n view.length = view.length := Nat.min_eq_right hle
    simp [sampleRows, pandasSample, hm]

/-- Witness for C9: asking for five rows of the three-row table returns
all three rows. -/
theorem sampleRows_min_count_witness :
    exTbl.length ≤ 5 ∧ sampleRows exTbl 5 = some exTbl :=
  ⟨by decide, (sampleRows_min_count exTbl 5).2 (by decide)⟩

/-- C1, counterexample: on the empty view the full-text percentage is
the float NaN that numpy produces for the unguarded division 0/0, not
the zero or not-available sentinel the claim promises. -/
theorem summarize_empty_fullTextPct_nan :
    (summarize ([] : List Row)).fullTextPct = MetricVal.nan ∧
    (summarize ([] : List Row)).fullTextPct ≠ MetricVal.rat 0 ∧
    (summarize ([] : List Row)).fullTextPct ≠ MetricVal.na := by
  decide

/-- C1, amended: summarizing the empty view raises nothing; the guarded
metrics report their sentinels, while the unguarded full-text percentage
and mean author count evaluate to NaN, which is what the caller
receives. -/
theorem summarize_empty_eq :
    summarize ([] : List Row) =
      { totalCount := 0
        uniqueJournalCount := 0
        meanAuthorCount := MetricVal.nan
        fullTextPct := MetricVal.nan
        modeYear := MetricVal.na
        dateRangeMin := MetricVal.na
        dateRangeMax := MetricVal.na
        meanAbstractLength := MetricVal.rat 0
        modeSource := MetricVal.na
        modeJournal := MetricVal.na
        abstractCompleteness := MetricVal.rat 0 } := by
  decide

/-- Every element of a list is bounded by the fold of Nat.max over it. -/
theorem le_foldr_max (xs : List Nat) : ∀ x ∈ xs, x ≤ xs.foldr Nat.max 0 := by
  induction xs with
  | nil => intro x hx; cases hx
  | cons a as ih =>
    intro x hx
    rcases List.mem_cons.mp hx with rfl | hx
    · exact Nat.le_max_left _ _
    · exact Nat.le_trans (ih x hx) (Nat.le_max_right _ _)

/-- The fold of Nat.max over a list is an element of it or zero. -/
theorem foldr_max_mem (xs : List Nat) :
    xs.foldr Nat.max 0 ∈ xs ∨ xs.foldr Nat.max 0 = 0 := by
  induction xs with
  | nil => exact Or.inr rfl
  | cons a as ih =>
    by_cases hle : as.foldr Nat.max 0 ≤ a
    · left
      have : (a :: as).foldr Nat.max 0 = a := by
        simp only [List.foldr_cons]; exact Nat.max_eq_left hle
      rw [this]; exact List.mem_cons_self a as
    · have hmax : (a :: as).foldr Nat.max 0 = as.foldr Nat.max 0 := by
        simp only [List.foldr_cons]
        exact Nat.max_eq_right (Nat.le_of_not_le hle)
      rcases ih with hmem | h0
      · left; rw [hmax]; exact List.mem_cons_of_mem a hmem
      · right; rw [hmax, h0]

/-- What Series.mode followed by .iloc[0] yields on a non-empty value
list: the list of modes is non-empty, and its first element is a value
of maximal frequency, the smallest among the tied ones. -/
theorem pandasMode_spec {α : Type} [DecidableEq α] [LinearOrder α]
    (l : List α) (h : l ≠ []) :
    ∃ y t, pandasMode l = y :: t ∧ y ∈ l ∧
      (∀ z ∈ l, l.count z ≤ l.count y) ∧
      (∀ z ∈ l, l.count z = l.count y → y ≤ z) := by
  have hperm : (modeCandidates l).Perm l.dedup := List.perm_insertionSort _ _
  have hsorted : List.Pairwise (fun a b => a ≤ b) (modeCandidates l) :=
    List.sorted_insertionSort _ _
  have hmemkeys : ∀ z : α, z ∈ modeCandidates l ↔ z ∈ l := by
    intro z; rw [hperm.mem_iff, List.mem_dedup]
  have hbound : ∀ z ∈ l, l.count z ≤ modeMaxCount l := by
    intro z hz
    exact le_foldr_max _ _ (List.mem_map_of_mem _ ((hmemkeys z).mpr hz))
  have hkeysne : modeCandidates l ≠ [] := by
    intro he
    have hd : l.dedup = [] := by
      have hp2 := hperm.symm
      rw [he] at hp2
      exact hp2.eq_nil
    exact h ((List.dedup_eq_nil l).mp hd)
  obtain ⟨y0, hy0⟩ := List.exists_mem_of_ne_nil _ hkeysne
  have hy0l : y0 ∈ l := (hmemkeys y0).mp hy0
  have hm0 : modeMaxCount l ≠ 0 := by
    intro he
    have h1 : 0 < l.count y0 := List.count_pos_iff.mpr hy0l
    have h2 := hbound y0 hy0l
    omega
  have hmmem : modeMaxCount l ∈ (modeCandidates l).map (fun y => l.count y) :=
    (foldr_max_mem _).resolve_right hm0
  obtain ⟨ystar, hystar, hcystar⟩ := List.mem_map.mp hmmem
  have hfil : ystar ∈ pandasMode l :=
    List.mem_filter.mpr ⟨hystar, by simp [hcystar]⟩
  obtain ⟨y, t, hyt⟩ := List.exists_cons_of_ne_nil (List.ne_nil_of_mem hfil)
  have hyfil : y ∈ pandasMode l := by rw [hyt]; exact List.mem_cons_self y t
  have hykeys : y ∈ modeCandidates l := (List.mem_filter.mp hyfil).1
  have hycount : l.count y = modeMaxCount l := by
    have := (List.mem_filter.mp hyfil).2
    simpa using this
  have hsortedfil : List.Pairwise (fun a b => a ≤ b) (pandasMode l) :=
    hsorted.filter _
  refine ⟨y, t, hyt, (hmemkeys y).mp hykeys, ?_, ?_⟩
  · intro z hz
    rw [hycount]
    exact hbound z hz
  · intro z hz hzc
    have hzfil : z ∈ pandasMode l :=
      List.mem_filter.mpr ⟨(hmemkeys z).mpr hz, by simp [hzc, hycount]⟩
    rw [hyt] at hzfil
    rcases List.mem_cons.mp hzfil with rfl | hzt
    · exact le_refl z
    · rw [hyt] at hsortedfil
      exact List.rel_of_pairwise_cons hsortedfil hzt

/-- C8, counterexample: a non-empty view whose only row has a null
publish year makes line 165 raise IndexError (the mode of an all-null
series is empty, so .iloc[0] is out of bounds); there is no year value
the metric could equal. -/
theorem modeYear_all_null_counterexample :
    ([exRowNullYear] : List Row) ≠ [] ∧
    modeYearMetric [exRowNullYear] = MetricVal.err ∧
    List.filterMap (fun r => r.publish_year) [exRowNullYear] = [] := by
  refine ⟨by decide, by decide, by decide⟩

/-- C8, amended: on every view with at least one non-null publish year,
the most-active-year metric is a year of maximal frequency, the smallest
among tied years. -/
theorem modeYear_min_most_frequent (view : List Row)
    (h : view.filterMap (fun r => r.publish_year) ≠ []) :
    ∃ y : Int, modeYearMetric view = MetricVal.int y ∧
      y ∈ view.filterMap (fun r => r.publish_year) ∧
      (∀ z ∈ view.filterMap (fun r => r.publish_year),
        (view.filterMap (fun r => r.publish_year)).count z ≤
          (view.filterMap (fun r => r.publish_year)).count y) ∧
      (∀ z ∈ view.filterMap (fun r => r.publish_year),
        (view.filterMap (fun r => r.publish_year)).count z =
          (view.filterMap (fun r => r.publish_year)).count y → y ≤ z) := by
  have hv : view ≠ [] := by
    intro he; rw [he] at h; exact h rfl
  have hvE : view.isEmpty = false := by simp [hv]
  obtain ⟨y, t, heq, hmem, hb, hmin⟩ :=
    pandasMode_spec (view.filterMap (fun r => r.publish_year)) h
  refine ⟨y, ?_, hmem, hb, hmin⟩
  unfold modeYearMetric pandasModeInt
  rw [hvE]
  simp only [Bool.false_eq_true, if_false]
  rw [heq]

/-- Witness for C8 at the scenario table, where 2020 occurs twice and
2021 once. -/
theorem modeYear_min_most_frequent_witness :
    (exTbl.filterMap (fun r => r.publish_year) ≠ []) ∧
    (∃ y : Int, modeYearMetric exTbl = MetricVal.int y ∧
      y ∈ exTbl.filterMap (fun r => r.publish_year) ∧
      (∀ z ∈ exTbl.filterMap (fun r => r.publish_year),
        (exTbl.filterMap (fun r => r.publish_year)).count z ≤
          (exTbl.filterMap (fun r => r.publish_year)).count y) ∧
      (∀ z ∈ exTbl.filterMap (fun r => r.publish_year),
        (exTbl.filterMap (fun r => r.publish_year)).count z =
          (exTbl.filterMap (fun r => r.publish_year)).count y → y ≤ z)) :=
  ⟨by decide, modeYear_min_most_frequent exTbl (by decide)⟩

/-- C5: the year series of the bar chart is strictly ascending in its
year keys (hence free of duplicate keys), every key is a year of some
row of the view, and the counts add up to the number of rows with a
non-null year, so null-year rows and only they are excluded. -/
theorem aggregateByYear_spec (view : List Row) :
    List.Pairwise (fun p q : Int × Nat => p.1 < q.1) (aggregateByYear view) ∧
    (∀ p ∈ aggregateByYear view, ∃ r ∈ view, r.publish_year = some p.1) ∧
    ((aggregateByYear view).map Prod.snd).sum =
      (view.filter (fun r => r.publish_year.isSome)).length := by
  have hagg : aggregateByYear view =
      (List.insertionSort (fun a b => a ≤ b)
          (view.filterMap (fun r => r.publish_year)).dedup).map
        (fun y => (y, (view.filterMap (fun r => r.publish_year)).count y)) := rfl
  have hperm : (List.insertionSort (fun a b => a ≤ b)
      (view.filterMap (fun r => r.publish_year)).dedup).Perm
      (view.filterMap (fun r => r.publish_year)).dedup :=
    List.perm_insertionSort _ _
  have hsorted : List.Sorted (fun a b : Int => a ≤ b)
      (List.insertionSort (fun a b => a ≤ b)
        (view.filterMap (fun r => r.publish_year)).dedup) :=
    List.sorted_insertionSort _ _
  have hnodup : (List.insertionSort (fun a b => a ≤ b)
      (view.filterMap (fun r => r.publish_year)).dedup).Nodup :=
    hperm.nodup_iff.mpr (List.nodup_dedup _)
  have hlt : List.Sorted (fun a b : Int => a < b)
      (List.insertionSort (fun a b => a ≤ b)
        (view.filterMap (fun r => r.publish_year)).dedup) :=
    List.Sorted.lt_of_le hsorted hnodup
  refine ⟨?_, ?_, ?_⟩
  · rw [hagg]
    exact (List.pairwise_map).mpr hlt
  · intro p hp
    rw [hagg] at hp
    obtain ⟨y, hy, rfl⟩ := List.mem_map.mp hp
    have hyl : y ∈ view.filterMap (fun r => r.publish_year) :=
      List.mem_dedup.mp (hperm.mem_iff.mp hy)
    obtain ⟨r, hr, hry⟩ := List.mem_filterMap.mp hyl
    exact ⟨r, hr, hry⟩
  · rw [hagg, List.map_map]
    have hpm : ((List.insertionSort (fun a b => a ≤ b)
        (view.filterMap (fun r => r.publish_year)).dedup).map
          (fun y => (view.filterMap (fun r => r.publish_year)).count y)).Perm
        ((view.filterMap (fun r => r.publish_year)).dedup.map
          (fun y => (view.filterMap (fun r => r.publish_year)).count y)) :=
      hperm.map _
    have hsum := hpm.sum_eq
    have hddp := List.sum_map_count_dedup_eq_length
      (view.filterMap (fun r => r.publish_year))
    have hlen : (view.filterMap (fun r => r.publish_year)).length =
        (view.filter (fun r => r.publish_year.isSome)).length := by
      rw [List.length_filterMap_eq_countP, List.countP_eq_length_filter]
    calc ((List.insertionSort (fun a b => a ≤ b)
            (view.filterMap (fun r => r.publish_year)).dedup).map
          (Prod.snd ∘ fun y => (y, (view.filterMap (fun r => r.publish_year)).count y))).sum
        = ((List.insertionSort (fun a b => a ≤ b)
            (view.filterMap (fun r => r.publish_year)).dedup).map
          (fun y => (view.filterMap (fun r => r.publish_year)).count y)).sum := rfl
      _ = ((view.filterMap (fun r => r.publish_year)).dedup.map
          (fun y => (view.filterMap (fun r => r.publish_year)).count y)).sum := hsum
      _ = (view.filterMap (fun r => r.publish_year)).length := hddp
      _ = (view.filter (fun r => r.publish_year.isSome)).length := hlen

/-- A term free of regex metacharacters compiles to the sequence of its
characters as literal atoms. -/
theorem parsePat_literal (w : List Char) (h : ∀ c ∈ w, c ∉ metaChars) :
    parsePat w = some (w.map PatAtom.ch) := by
  induction w with
  | nil => rfl
  | cons c rest ih =>
    have hc : c ∉ metaChars := h c (List.mem_cons_self c rest)
    have hbs : ¬ c = '\\' := fun he => hc (by rw [he]; decide)
    have hdot : ¬ c = '.' := fun he => hc (by rw [he]; decide)
    have ih2 := ih (fun d hd => h d (List.mem_cons_of_mem c hd))
    rw [parsePat.eq_def]
    simp [hbs, hdot, hc, ih2]

/-- A literal pattern matches at the start of the input exactly when the
lower-cased pattern characters are an initial segment of the lower-cased
input. -/
theorem patAtStart_literal (w : List Char) : ∀ t : List Char,
    patAtStart (w.map PatAtom.ch) t
      = chStartsWith (w.map Char.toLower) (t.map Char.toLower) := by
  induction w with
  | nil => intro t; cases t <;> rfl
  | cons c cs ih =>
    intro t
    cases t with
    | nil => rfl
    | cons a as =>
      simp only [List.map_cons, patAtStart, chStartsWith, atomMatches, ih as]

/-- A literal pattern is found by the regex search exactly when the
lower-cased pattern occurs inside the lower-cased input. -/
theorem patSearch_literal (w : List Char) : ∀ t : List Char,
    patSearch (w.map PatAtom.ch) t
      = chOccursIn (w.map Char.toLower) (t.map Char.toLower) := by
  intro t
  induction t with
  | nil => simpa using patAtStart_literal w []
  | cons a as ih =>
    simp only [List.map_cons, patSearch, chOccursIn, ih]
    rw [← List.map_cons Char.toLower a as, patAtStart_literal w (a :: as)]

/-- C4, counterexample: the search term is handed to the regex engine,
so the term consisting of a single dot keeps a row although a dot occurs
as a substring of neither its title nor its abstract. -/
theorem searchFilter_dot_counterexample :
    searchFilter [exRowDot] (".") = some [exRowDot] ∧
    exRowDot.title = some ("abc") ∧
    exRowDot.abstract = abstractSentinel ∧
    ciSubstrOf (".") ("abc") = false ∧
    ciSubstrOf (".") abstractSentinel = false := by
  refine ⟨by decide, by decide, by decide, by decide, by decide⟩

/-- C4, amended: for a non-empty search term free of regex
metacharacters, a row of the view is kept exactly when the term occurs
case-insensitively as a substring of its title or of its abstract, a
null title being non-matching; terms containing metacharacters follow
regex semantics instead. -/
theorem searchFilter_literal_substring (view : List Row) (term : String)
    (hne : term ≠ "") (hlit : ∀ c ∈ term.toList, c ∉ metaChars) :
    ∃ res, searchFilter view term = some res ∧
      ∀ r : Row, r ∈ res ↔ r ∈ view ∧
        ((∃ t, r.title = some t ∧ ciSubstrOf term t = true) ∨
          ciSubstrOf term r.abstract = true) := by
  have hp := parsePat_literal term.toList hlit
  refine ⟨view.filter (rowSearchHit (term.toList.map PatAtom.ch)), ?_, ?_⟩
  · unfold searchFilter
    rw [hp]
    rfl
  · intro r
    rw [List.mem_filter]
    have hhit : rowSearchHit (term.toList.map PatAtom.ch) r = true ↔
        ((∃ t, r.title = some t ∧ ciSubstrOf term t = true) ∨
          ciSubstrOf term r.abstract = true) := by
      unfold rowSearchHit cellContains
      cases htitle : r.title with
      | none =>
          simp [patSearch_literal, ciSubstrOf, lowerChars]
      | some s =>
          simp [patSearch_literal, ciSubstrOf, lowerChars]
    rw [hhit]

/-- Witness for C4 at the scenario table: the literal term appears in
the title of row A and in the abstract of row B. -/
theorem searchFilter_literal_substring_witness :
    (("vaccine" : String) ≠ "" ∧ ∀ c ∈ ("vaccine" : String).toList, c ∉ metaChars) ∧
    (∃ res, searchFilter exTbl ("vaccine") = some res ∧
      ∀ r : Row, r ∈ res ↔ r ∈ exTbl ∧
        ((∃ t, r.title = some t ∧ ciSubstrOf ("vaccine") t = true) ∨
          ciSubstrOf ("vaccine") r.abstract = true)) :=
  ⟨⟨by decide, by decide⟩,
   searchFilter_literal_substring exTbl ("vaccine") (by decide) (by decide)⟩

end Cord19
